import Mathlib

/-!
Verification of the Stepik Studio recording-and-export pipeline.

Shallow embedding of the repository files
`stepicstudio/postprocessing/exporting/__init__.py` and
`stepicstudio/video_recorders/camera_recorder.py`.
External collaborators (file system client, task scheduler, Django settings)
are modelled as explicit environment records and effect traces; Python
exceptions are modelled with `Except`; Python dicts are modelled as
association lists with insertion-order preserving update.
-/

namespace StepikStudio

/-- Modelled from the spec: the tagged status of a Command Result
(success / non-fatal failure / fatal failure); the enum itself lives in
`stepicstudio/operations_statuses/statuses.py`, outside the given sources. -/
inductive ExecutionStatus where
  | SUCCESS
  | FIXABLE_ERROR
  | FATAL_ERROR
deriving DecidableEq, Repr

/-- Modelled from the spec: a Command Result, status plus human-readable
message (`stepicstudio/operations_statuses/operation_result.py`). -/
structure InternalOperationResult where
  status : ExecutionStatus
  message : String
deriving DecidableEq, Repr

/-- Python dict assignment `d[k] = v`: update in place when the key is
present, otherwise append at the end (insertion order preserved). -/
def dictInsert {α : Type} (d : List (String × α)) (k : String) (v : α) :
    List (String × α) :=
  match d with
  | [] => [(k, v)]
  | (k', v') :: rest =>
      if k' = k then (k, v) :: rest else (k', v') :: dictInsert rest k v

/-- Python dict lookup `d[k]` as an `Option`. -/
def dictLookup {α : Type} (d : List (String × α)) (k : String) : Option α :=
  match d with
  | [] => none
  | (k', v) :: rest => if k' = k then some v else dictLookup rest k

/-- The fluent builder of `PPROCommandBuilder` in
`stepicstudio/postprocessing/exporting/__init__.py`: a growing command
string plus the deferred include directive. -/
structure PPROCommandBuilder where
  base_command : String
  script_to_include : String
deriving DecidableEq, Repr

/-- Constructor of `PPROCommandBuilder`: appends the opening double quote
to the base command and starts with no deferred include. -/
def PPROCommandBuilder.init (base_command : String) : PPROCommandBuilder :=
  { base_command := base_command ++ " \"", script_to_include := "" }

/-- Static helper `_list_to_array` of the builder. -/
def list_to_array (source_list : List String) : String :=
  if source_list.isEmpty then "[]"
  else "[" ++ String.intercalate ", "
      (source_list.map (fun item => "\x27" ++ item ++ "\x27")) ++ "]"

def PPROCommandBuilder.append_opening_document (b : PPROCommandBuilder)
    (path : String) : PPROCommandBuilder :=
  { b with base_command :=
      b.base_command ++ "app.openDocument(" ++ "\x27" ++ path ++ "\x27" ++ ");" }

/-- Text of the deferred include directive recorded by
`append_script_including`. -/
def includeDirective (path : String) : String :=
  " //@include \x27" ++ path ++ "\x27"

/-- Method `append_script_including`: raises when a script including was
already recorded, otherwise records the deferred directive. -/
def PPROCommandBuilder.append_script_including (b : PPROCommandBuilder)
    (path : String) : Except String PPROCommandBuilder :=
  if b.script_to_include ≠ "" then
    .error "Command already contains script including"
  else
    .ok { b with script_to_include := includeDirective path }

def PPROCommandBuilder.append_eval_file (b : PPROCommandBuilder)
    (path : String) : PPROCommandBuilder :=
  { b with base_command := b.base_command ++ " $.evalFile(\"" ++ path ++ "\");" }

def PPROCommandBuilder.append_string_const (b : PPROCommandBuilder)
    (const_name const_value : String) : PPROCommandBuilder :=
  { b with base_command :=
      b.base_command ++ " const " ++ const_name ++ " = \x27" ++ const_value ++ "\x27;" }

def PPROCommandBuilder.append_const_array (b : PPROCommandBuilder)
    (const_name : String) (const_values : List String) : PPROCommandBuilder :=
  { b with base_command :=
      b.base_command ++ " const " ++ const_name ++ " = " ++ list_to_array const_values ++ ";" }

def PPROCommandBuilder.append_bool_value (b : PPROCommandBuilder)
    (bool_name : String) (bool_value : Bool) : PPROCommandBuilder :=
  { b with base_command :=
      b.base_command ++ " var " ++ bool_name ++ " = Boolean(" ++ toString bool_value ++ ");" }

/-- Serialization of one dict entry with a list value. -/
def dictEntryList (kv : String × List String) : String :=
  "\x27" ++ kv.1 ++ "\x27: " ++ list_to_array kv.2

/-- Serialization of one dict entry with a scalar value. -/
def dictEntryScalar (kv : String × String) : String :=
  "\x27" ++ kv.1 ++ "\x27: " ++ kv.2

/-- Method `append_dict` with `val_type = list`: every value serializes as
an array literal. -/
def PPROCommandBuilder.append_dict_list (b : PPROCommandBuilder)
    (name : String) (source_dict : List (String × List String)) : PPROCommandBuilder :=
  { b with base_command :=
      b.base_command ++ " var " ++ name ++ " = \x7b" ++
        String.intercalate ", " (source_dict.map dictEntryList) ++ "\x7d;" }

/-- Method `append_dict` with a scalar `val_type`: every value serializes
as a bare token. -/
def PPROCommandBuilder.append_dict_scalar (b : PPROCommandBuilder)
    (name : String) (source_dict : List (String × String)) : PPROCommandBuilder :=
  { b with base_command :=
      b.base_command ++ " var " ++ name ++ " = \x7b" ++
        String.intercalate ", " (source_dict.map dictEntryScalar) ++ "\x7d;" }

/-- Method `build`: appends the deferred include directive, when present,
after all accumulated content and closes the double quote. -/
def PPROCommandBuilder.build (b : PPROCommandBuilder) : String :=
  (if b.script_to_include ≠ "" then b.base_command ++ b.script_to_include
   else b.base_command) ++ "\""

/-- One append operation of the fluent builder interface, used to reason
about arbitrary call sequences on a `PPROCommandBuilder`. -/
inductive PPROOp where
  | openingDocument (path : String)
  | evalFile (path : String)
  | stringConst (const_name const_value : String)
  | constArray (const_name : String) (const_values : List String)
  | boolValue (bool_name : String) (bool_value : Bool)
  | dictListVal (name : String) (source_dict : List (String × List String))
  | dictScalarVal (name : String) (source_dict : List (String × String))
  | scriptIncluding (path : String)
deriving DecidableEq, Repr

/-- Whether an operation is the deferred script including. -/
def PPROOp.isScriptIncluding : PPROOp → Bool
  | .scriptIncluding _ => true
  | _ => false

/-- The text each non-deferred append operation adds to the base command. -/
def PPROOp.appendedText : PPROOp → String
  | .openingDocument path => "app.openDocument(" ++ "\x27" ++ path ++ "\x27" ++ ");"
  | .evalFile path => " $.evalFile(\"" ++ path ++ "\");"
  | .stringConst n v => " const " ++ n ++ " = \x27" ++ v ++ "\x27;"
  | .constArray n vs => " const " ++ n ++ " = " ++ list_to_array vs ++ ";"
  | .boolValue n v => " var " ++ n ++ " = Boolean(" ++ toString v ++ ");"
  | .dictListVal n d =>
      " var " ++ n ++ " = \x7b" ++ String.intercalate ", " (d.map dictEntryList) ++ "\x7d;"
  | .dictScalarVal n d =>
      " var " ++ n ++ " = \x7b" ++ String.intercalate ", " (d.map dictEntryScalar) ++ "\x7d;"
  | .scriptIncluding _ => ""

/-- Dispatch of one operation to the corresponding builder method. -/
def applyOp (b : PPROCommandBuilder) : PPROOp → Except String PPROCommandBuilder
  | .openingDocument path => .ok (b.append_opening_document path)
  | .evalFile path => .ok (b.append_eval_file path)
  | .stringConst n v => .ok (b.append_string_const n v)
  | .constArray n vs => .ok (b.append_const_array n vs)
  | .boolValue n v => .ok (b.append_bool_value n v)
  | .dictListVal n d => .ok (b.append_dict_list n d)
  | .dictScalarVal n d => .ok (b.append_dict_scalar n d)
  | .scriptIncluding path => b.append_script_including path

/-- Run a sequence of append operations on a builder, stopping at the
first raised exception. -/
def runOps (b : PPROCommandBuilder) : List PPROOp → Except String PPROCommandBuilder
  | [] => .ok b
  | op :: rest =>
      match applyOp b op with
      | .error e => .error e
      | .ok b' => runOps b' rest

/-- Concatenated text of a sequence of non-deferred append operations. -/
def opsText : List PPROOp → String
  | [] => ""
  | op :: rest => op.appendedText ++ opsText rest

/-- Windows path separator used by the exporting module. -/
def osSep : String := "\\"

/-- Python `os.path.join` over the platform separator. -/
def pathJoin (a b : String) : String := a ++ osSep ++ b

/-- Python `os.path.dirname`. -/
def dirname (s : String) : String :=
  String.intercalate osSep (s.splitOn osSep).dropLast

/-- Python `path.replace(os.sep, backslash-backslash)` used before passing
paths into ExtendScript string literals. -/
def winPath (s : String) : String := s.replace osSep "\\\\"

def PRPROJ_TEMPLATE : String := "template.prproj"

def PRPROJ_REQUIRED_FILE : String := "extendscriptprqe.txt"

def PRPROJ_PRESET : String := "ppro.sqpreset"

def PRPROJ_SCRIPT : String := "create_deep_structured_project.jsx"

/-- Directory of the exporting module, the Python `os.path.dirname(__file__)`. -/
def EXPORTING_DIR : String := "stepicstudio\\postprocessing\\exporting"

def PRPROJ_TEMPLATES_PATH : String := pathJoin EXPORTING_DIR "adobe_templates"

def PPRO_WIN_PROCESS_NAME : String := "Adobe Premiere Pro.exe"

/-- Modelled from the spec: the environment the exporting module observes
through Django settings and the File System Client
(`stepicstudio/file_system_utils/file_system_client.py`, outside the given
sources): configured paths, file-existence probes, the process-name probe,
and the synchronous command executor. -/
structure ExportEnv where
  adobe_ppro_path : String
  adobe_ppro_cmd : String
  required_file_exists : Bool
  ppro_process_running : Bool
  template_file_exists : Bool
  preset_file_exists : Bool
  execute_command_sync : String → InternalOperationResult

/-- Function `build_ppro_command`: raises (models Python exceptions via
`Except`) on missing configuration or missing template or preset file,
otherwise chains the builder methods and builds the command string. -/
def build_ppro_command (env : ExportEnv) (base_path templates_path : String)
    (screen_files prof_files : List String)
    (marker_times : List (String × List Int))
    (sync_offsets : List (String × Int))
    (output_name : String) : Except String String :=
  if env.adobe_ppro_path = "" then
    .error ("Adobe PremierePro configuration is missing. " ++
      "Please, specify path to PremierePro in config file.")
  else
    let base_command := "\"" ++ env.adobe_ppro_path ++ "\" " ++ env.adobe_ppro_cmd
    let prproj_template_path := pathJoin templates_path PRPROJ_TEMPLATE
    let prproj_preset_path := pathJoin templates_path PRPROJ_PRESET
    let script_path := pathJoin (pathJoin EXPORTING_DIR "adobe_scripts") PRPROJ_SCRIPT
    if env.template_file_exists = false then
      .error ("Template of PremierPro project is missing. " ++
        "Please, create empty PPro project at " ++ prproj_template_path)
    else if env.preset_file_exists = false then
      .error (".sqpreset sequence template file is missing. " ++
        "Please, put .sqpreset at " ++ prproj_preset_path)
    else
      match ((((((((((PPROCommandBuilder.init base_command).append_opening_document
          (winPath prproj_template_path)).append_string_const
          "outputName" output_name).append_string_const
          "basePath" (winPath base_path)).append_string_const
          "presetPath" (winPath prproj_preset_path)).append_const_array
          "screenVideos" screen_files).append_const_array
          "professorVideos" prof_files).append_bool_value
          "needSync" true).append_dict_list
          "markerTimes" (marker_times.map (fun kv => (kv.1, kv.2.map toString)))).append_dict_scalar
          "syncOffsets" (sync_offsets.map (fun kv => (kv.1, toString kv.2)))).append_script_including
          (winPath script_path) with
      | .error e => .error e
      | .ok b => .ok b.build

/-- A database object handed to the export orchestrator: only its display
name and file-system path are read. -/
structure DbObject where
  name : String
  os_path : String
deriving DecidableEq, Repr

/-- Result of one export invocation together with the observable
interaction with the external process client: the command handed to
`execute_command_sync`, when any. -/
structure ExportOutcome where
  result : InternalOperationResult
  executed_command : Option String
deriving DecidableEq, Repr

/-- The four parallel aggregate structures produced by a files extractor. -/
abbrev ExtractedFiles :=
  List String × List String × List (String × List Int) × List (String × Int)

/-- Function `export_obj_to_prproj`: sentinel-file check, running-process
check, extraction, emptiness check, command construction with exceptions
downgraded to a fatal result, then synchronous execution. The function
`translate_non_alphanumerics` lives outside the given sources and is
passed as an opaque collaborator. -/
def export_obj_to_prproj (env : ExportEnv) (translate : String → String)
    (db_object : DbObject) (files_extractor : DbObject → ExtractedFiles) :
    ExportOutcome :=
  if env.required_file_exists = false then
    { result := ⟨.FATAL_ERROR,
        "\x27" ++ PRPROJ_REQUIRED_FILE ++ "\x27 is missing. Please, place \x27" ++
          PRPROJ_REQUIRED_FILE ++ "\x27 empty file to \n\x27" ++
          dirname env.adobe_ppro_path ++ "\x27."⟩,
      executed_command := none }
  else if env.ppro_process_running then
    { result := ⟨.FATAL_ERROR,
        "Only one instance of PPro may exist. Please, close PPro and try again."⟩,
      executed_command := none }
  else
    match files_extractor db_object with
    | (screen_files, prof_files, marker_times, sync_offsets) =>
      if screen_files.isEmpty || prof_files.isEmpty then
        { result := ⟨.FATAL_ERROR, "Object is empty or subitems are broken."⟩,
          executed_command := none }
      else
        match build_ppro_command env db_object.os_path PRPROJ_TEMPLATES_PATH
            screen_files prof_files marker_times sync_offsets
            (translate db_object.name) with
        | .error e =>
            { result := ⟨.FATAL_ERROR, e⟩, executed_command := none }
        | .ok ppro_command =>
            if (env.execute_command_sync ppro_command).status = .SUCCESS then
              { result := ⟨.SUCCESS, ""⟩, executed_command := some ppro_command }
            else
              { result := ⟨.FATAL_ERROR,
                  "Cannot execute PPro command. Check PPro configuration."⟩,
                executed_command := some ppro_command }

/-- A SubStep as read by the aggregator: its validity flag, the on-disk
existence of both backing files, and the two feed filenames. -/
structure SubStep where
  is_videos_ok : Bool
  screencast_file_exists : Bool
  camera_file_exists : Bool
  screencast_name : String
  camera_recording_name : String
deriving DecidableEq, Repr

/-- The four parallel structures accumulated by `get_target_step_files`. -/
structure StepFiles where
  screen_files : List String
  prof_files : List String
  marker_times : List (String × List Int)
  sync_offsets : List (String × Int)
deriving DecidableEq, Repr

/-- One iteration of the SubStep loop of `get_target_step_files`: skip an
invalid SubStep, otherwise append both filenames, record the marker times,
and attribute the synchronization offset by its sign. The collaborators
`get_sync_offset` and `get_diff_times` are opaque parameters. -/
def processSubStep (get_sync_offset : SubStep → Int)
    (get_diff_times : SubStep → List Int) (acc : StepFiles) (substep : SubStep) :
    StepFiles :=
  if substep.is_videos_ok && substep.screencast_file_exists &&
      substep.camera_file_exists then
    let curr_sync_offset := get_sync_offset substep
    { screen_files := acc.screen_files ++ [substep.screencast_name],
      prof_files := acc.prof_files ++ [substep.camera_recording_name],
      marker_times :=
        dictInsert acc.marker_times substep.screencast_name (get_diff_times substep),
      sync_offsets :=
        if 0 < curr_sync_offset then
          dictInsert acc.sync_offsets substep.screencast_name curr_sync_offset
        else
          dictInsert acc.sync_offsets substep.camera_recording_name |curr_sync_offset| }
  else acc

/-- Function `get_target_step_files`: fold of the loop body over the
SubSteps of the step, ordered by start time (the ordered query is modelled
as the input list). -/
def get_target_step_files (get_sync_offset : SubStep → Int)
    (get_diff_times : SubStep → List Int) (substeps : List SubStep) : StepFiles :=
  substeps.foldl (processSubStep get_sync_offset get_diff_times)
    { screen_files := [], prof_files := [], marker_times := [], sync_offsets := [] }

/-- Grace delay before the forced kill of the capture process, the
constant `KILL_DELAY` of `camera_recorder.py`. -/
def KILL_DELAY : Nat := 3

/-- A handle to a launched external process: its identifier and whether a
poll would still report it as running. -/
structure ProcessHandle where
  pid : Nat
  running : Bool
deriving DecidableEq, Repr

/-- The mutable session state of `ServerCameraRecorder`: the process
handle, when any, and the last processed path and filename. -/
structure RecorderState where
  process : Option ProcessHandle
  last_processed_path : Option String
  last_processed_file : Option String
deriving DecidableEq, Repr

/-- Modelled from the spec: the collaborators of the recorder — the
configured capture command (`FFMPEGcommand` from `stepicstudio/const.py`,
outside the given sources), the File System Client launch and quit-signal
operations. -/
structure CameraEnv where
  command : String
  execute_command : String → InternalOperationResult × Option ProcessHandle
  send_quit_signal : ProcessHandle → InternalOperationResult

/-- Observable interactions of one `stop_recording` call: the process the
quit signal was sent to, the scheduled forced-kill task as a pair of
process identifier and delay, and the postprocessing pipe application. -/
structure StopEffects where
  quit_signalled : Option Nat
  kill_scheduled : Option (Nat × Nat)
  pipe_applied : Option (Option String × Option String)
deriving DecidableEq, Repr

/-- Method `is_active`: a process handle exists and its poll still reports
it running. -/
def is_active (st : RecorderState) : Bool :=
  match st.process with
  | none => false
  | some p => p.running

/-- Method `start_recording`: reject when already active; otherwise launch
the capture command, unconditionally store the returned handle, and record
path and filename only on launch success. -/
def start_recording (env : CameraEnv) (st : RecorderState)
    (path filename : String) : InternalOperationResult × RecorderState :=
  if is_active st then
    (⟨.FATAL_ERROR, "Camera is actually recording"⟩, st)
  else
    let local_command := env.command ++ pathJoin path filename
    let launched := env.execute_command local_command
    if launched.1.status = .SUCCESS then
      (launched.1,
       { process := launched.2,
         last_processed_path := some path,
         last_processed_file := some filename })
    else
      (launched.1, { st with process := launched.2 })

/-- Method `stop_recording`: when inactive, clear any stale handle and
return success; when active, send the quit signal, unconditionally
schedule the forced kill after `KILL_DELAY`, and on signal success clear
the handle and apply the postprocessing pipe. -/
def stop_recording (env : CameraEnv) (st : RecorderState) :
    InternalOperationResult × RecorderState × StopEffects :=
  match st.process with
  | none =>
      (⟨.SUCCESS, "Camera isn\x27t active: can\x27t stop non existing FFMPEG process"⟩,
       { st with process := none },
       ⟨none, none, none⟩)
  | some p =>
      if p.running = false then
        (⟨.SUCCESS, "Camera isn\x27t active: can\x27t stop non existing FFMPEG process"⟩,
         { st with process := none },
         ⟨none, none, none⟩)
      else
        let result := env.send_quit_signal p
        if result.status = .SUCCESS then
          (result,
           { st with process := none },
           ⟨some p.pid, some (p.pid, KILL_DELAY),
            some (st.last_processed_path, st.last_processed_file)⟩)
        else
          (result, st, ⟨some p.pid, some (p.pid, KILL_DELAY), none⟩)

/-- Sample synchronous executor reporting success, used by concrete
witnesses. -/
def sampleExec : String → InternalOperationResult := fun _ => ⟨.SUCCESS, ""⟩

/-- Sample environment with the editing tool already running. -/
def envBusy : ExportEnv :=
  ⟨"C:\\ppro\\ppro.exe", "--es", true, true, true, true, sampleExec⟩

/-- Sample environment with all preconditions satisfied. -/
def envIdle : ExportEnv :=
  ⟨"C:\\ppro\\ppro.exe", "--es", true, false, true, true, sampleExec⟩

/-- Sample environment with the editing-tool path not configured, so that
command construction raises. -/
def envNoConfig : ExportEnv := ⟨"", "--es", true, false, true, true, sampleExec⟩

/-- Sample database object. -/
def sampleObj : DbObject := ⟨"Step 1", "C:\\course\\lesson\\step"⟩

/-- Sample extractor returning one file per feed. -/
def sampleExtractor : DbObject → ExtractedFiles :=
  fun _ => (["screenA.mp4"], ["profA.mp4"], [], [])

/-- Sample extractor returning empty filename sequences. -/
def emptyExtractor : DbObject → ExtractedFiles := fun _ => ([], [], [], [])

/-! Helper lemmas about the dict model and the builder. -/

theorem dictLookup_dictInsert_self {α : Type} (d : List (String × α))
    (k : String) (v : α) : dictLookup (dictInsert d k v) k = some v := by
  induction d with
  | nil => simp [dictInsert, dictLookup]
  | cons hd tl ih =>
      obtain ⟨k', v'⟩ := hd
      by_cases h : k' = k
      · simp [dictInsert, dictLookup, h]
      · simp [dictInsert, dictLookup, h, ih]

theorem dictLookup_dictInsert_ne {α : Type} (d : List (String × α))
    (k k' : String) (v : α) (h : k' ≠ k) :
    dictLookup (dictInsert d k v) k' = dictLookup d k' := by
  induction d with
  | nil => simp [dictInsert, dictLookup, Ne.symm h]
  | cons hd tl ih =>
      obtain ⟨k0, v0⟩ := hd
      by_cases h0 : k0 = k
      · subst h0
        simp [dictInsert, dictLookup, Ne.symm h]
      · simp [dictInsert, dictLookup, h0, ih]

theorem applyOp_not_including (b : PPROCommandBuilder) (op : PPROOp)
    (h : op.isScriptIncluding = false) :
    applyOp b op = .ok { b with base_command := b.base_command ++ op.appendedText } := by
  cases op <;> simp_all [applyOp, PPROOp.isScriptIncluding, PPROOp.appendedText,
    PPROCommandBuilder.append_opening_document, PPROCommandBuilder.append_eval_file,
    PPROCommandBuilder.append_string_const, PPROCommandBuilder.append_const_array,
    PPROCommandBuilder.append_bool_value, PPROCommandBuilder.append_dict_list,
    PPROCommandBuilder.append_dict_scalar, String.append_assoc]

theorem runOps_no_including (ops : List PPROOp)
    (h : ∀ op ∈ ops, op.isScriptIncluding = false) (b : PPROCommandBuilder) :
    runOps b ops = .ok { b with base_command := b.base_command ++ opsText ops } := by
  induction ops generalizing b with
  | nil => simp [runOps, opsText]
  | cons op rest ih =>
      have hop : op.isScriptIncluding = false := h op (List.mem_cons_self op rest)
      have hrest : ∀ o ∈ rest, o.isScriptIncluding = false :=
        fun o ho => h o (List.mem_cons_of_mem op ho)
      have step := applyOp_not_including b op hop
      simp only [runOps, step]
      rw [ih hrest]
      simp [opsText, String.append_assoc]

theorem runOps_append (b : PPROCommandBuilder) (l1 l2 : List PPROOp) :
    runOps b (l1 ++ l2) =
      match runOps b l1 with
      | .error e => .error e
      | .ok b' => runOps b' l2 := by
  induction l1 generalizing b with
  | nil => simp [runOps]
  | cons op rest ih =>
      rw [List.cons_append, runOps, runOps]
      cases applyOp b op with
      | error e => rfl
      | ok b' => exact ih b'

theorem includeDirective_ne_empty (path : String) : includeDirective path ≠ "" := by
  intro h
  have hlen : (includeDirective path).length = 0 := by rw [h]; rfl
  rw [includeDirective, String.length_append, String.length_append] at hlen
  have h13 : (" //@include \x27" : String).length = 13 := by decide
  have h1 : ("\x27" : String).length = 1 := by decide
  omega

theorem processSubStep_valid (get_sync_offset : SubStep → Int)
    (get_diff_times : SubStep → List Int) (acc : StepFiles) (s : SubStep)
    (hvalid : (s.is_videos_ok && s.screencast_file_exists && s.camera_file_exists) = true) :
    processSubStep get_sync_offset get_diff_times acc s =
      { screen_files := acc.screen_files ++ [s.screencast_name],
        prof_files := acc.prof_files ++ [s.camera_recording_name],
        marker_times :=
          dictInsert acc.marker_times s.screencast_name (get_diff_times s),
        sync_offsets :=
          if 0 < get_sync_offset s then
            dictInsert acc.sync_offsets s.screencast_name (get_sync_offset s)
          else
            dictInsert acc.sync_offsets s.camera_recording_name |get_sync_offset s| } := by
  simp [processSubStep, hvalid]

/-! Claim theorems. -/

/-- C2: for every builder sequence in which `append_script_including`
succeeds once at any position, the string returned by `build` places the
include directive strictly after the text contributed by every other
append operation, regardless of the order of the operations. -/
theorem C2_include_directive_last (base path : String) (pre post : List PPROOp)
    (hpre : ∀ op ∈ pre, op.isScriptIncluding = false)
    (hpost : ∀ op ∈ post, op.isScriptIncluding = false) :
    (runOps (PPROCommandBuilder.init base)
        (pre ++ PPROOp.scriptIncluding path :: post)).map PPROCommandBuilder.build =
      .ok (base ++ " \"" ++ opsText pre ++ opsText post ++
        includeDirective path ++ "\"") := by
  have h1 : runOps (PPROCommandBuilder.init base) pre =
      .ok { base_command := (base ++ " \"") ++ opsText pre, script_to_include := "" } := by
    rw [runOps_no_including pre hpre]; rfl
  have h2 : applyOp
      { base_command := (base ++ " \"") ++ opsText pre, script_to_include := "" }
      (PPROOp.scriptIncluding path) =
      .ok { base_command := (base ++ " \"") ++ opsText pre,
            script_to_include := includeDirective path } := by
    simp [applyOp, PPROCommandBuilder.append_script_including]
  have h3 : runOps
      { base_command := (base ++ " \"") ++ opsText pre,
        script_to_include := includeDirective path } post =
      .ok { base_command := ((base ++ " \"") ++ opsText pre) ++ opsText post,
            script_to_include := includeDirective path } := by
    rw [runOps_no_including post hpost]
  rw [runOps_append, h1]
  simp only [runOps, h2, h3]
  simp [PPROCommandBuilder.build, includeDirective_ne_empty path, Except.map,
    String.append_assoc]

/-- Witness for C2 at a concrete builder sequence. -/
theorem C2_include_directive_last_witness :
    (runOps (PPROCommandBuilder.init "ppro.exe --es")
        ([PPROOp.stringConst "outputName" "out"] ++ PPROOp.scriptIncluding "script.jsx" ::
          [PPROOp.boolValue "needSync" true])).map PPROCommandBuilder.build =
      .ok ("ppro.exe --es" ++ " \"" ++ opsText [PPROOp.stringConst "outputName" "out"] ++
        opsText [PPROOp.boolValue "needSync" true] ++
        includeDirective "script.jsx" ++ "\"") :=
  C2_include_directive_last "ppro.exe --es" "script.jsx"
    [PPROOp.stringConst "outputName" "out"] [PPROOp.boolValue "needSync" true]
    (by decide) (by decide)

/-- C9: a second call to `append_script_including` on the same builder
raises the contract violation, for every pair of path arguments. -/
theorem C9_second_script_including_raises (b b' : PPROCommandBuilder)
    (p1 p2 : String) (h : b.append_script_including p1 = .ok b') :
    b'.append_script_including p2 =
      .error "Command already contains script including" := by
  rw [PPROCommandBuilder.append_script_including] at h
  by_cases hb : b.script_to_include ≠ ""
  · simp [hb] at h
  · simp [hb] at h
    subst h
    simp [PPROCommandBuilder.append_script_including, includeDirective_ne_empty p1]

/-- Witness for C9 at concrete paths. -/
theorem C9_second_script_including_raises_witness :
    (PPROCommandBuilder.init "base").append_script_including "a.jsx" =
      .ok { base_command := "base \"", script_to_include := includeDirective "a.jsx" } ∧
    ({ base_command := "base \"", script_to_include := includeDirective "a.jsx" } :
        PPROCommandBuilder).append_script_including "b.jsx" =
      .error "Command already contains script including" :=
  ⟨by rfl, C9_second_script_including_raises
    { base_command := "base \"", script_to_include := "" }
    { base_command := "base \"", script_to_include := includeDirective "a.jsx" }
    "a.jsx" "b.jsx" (by rfl)⟩

/-- C1: for every valid SubStep processed by `get_target_step_files`,
exactly one offset entry is recorded: with a strictly positive computed
offset the entry is keyed by the screen-capture filename, otherwise by the
professor-feed filename; the stored value is the absolute value of the
offset; and the entry under the other filename is exactly what it was
before the SubStep was processed, so never are both or neither filenames
given an entry for the SubStep. -/
theorem C1_offset_attribution (get_sync_offset : SubStep → Int)
    (get_diff_times : SubStep → List Int) (pre : List SubStep) (s : SubStep)
    (hvalid : (s.is_videos_ok && s.screencast_file_exists && s.camera_file_exists) = true) :
    (0 < get_sync_offset s →
      dictLookup (processSubStep get_sync_offset get_diff_times
          (get_target_step_files get_sync_offset get_diff_times pre) s).sync_offsets
          s.screencast_name = some |get_sync_offset s| ∧
      (s.camera_recording_name ≠ s.screencast_name →
        dictLookup (processSubStep get_sync_offset get_diff_times
            (get_target_step_files get_sync_offset get_diff_times pre) s).sync_offsets
            s.camera_recording_name =
          dictLookup (get_target_step_files get_sync_offset get_diff_times
            pre).sync_offsets s.camera_recording_name)) ∧
    (¬ 0 < get_sync_offset s →
      dictLookup (processSubStep get_sync_offset get_diff_times
          (get_target_step_files get_sync_offset get_diff_times pre) s).sync_offsets
          s.camera_recording_name = some |get_sync_offset s| ∧
      (s.screencast_name ≠ s.camera_recording_name →
        dictLookup (processSubStep get_sync_offset get_diff_times
            (get_target_step_files get_sync_offset get_diff_times pre) s).sync_offsets
            s.screencast_name =
          dictLookup (get_target_step_files get_sync_offset get_diff_times
            pre).sync_offsets s.screencast_name)) := by
  have hP := processSubStep_valid get_sync_offset get_diff_times
    (get_target_step_files get_sync_offset get_diff_times pre) s hvalid
  constructor
  · intro hpos
    simp only [hP, if_pos hpos]
    constructor
    · rw [dictLookup_dictInsert_self, abs_of_pos hpos]
    · intro hne
      rw [dictLookup_dictInsert_ne _ _ _ _ hne]
  · intro hnonpos
    simp only [hP, if_neg hnonpos]
    constructor
    · rw [dictLookup_dictInsert_self]
    · intro hne
      rw [dictLookup_dictInsert_ne _ _ _ _ hne]

/-- Witness for C1: one already-aggregated SubStep, then a valid SubStep
with a negative offset. -/
theorem C1_offset_attribution_witness :
    ((0 : Int) < (-50) →
      dictLookup (processSubStep (fun _ => (-50 : Int)) (fun _ => [])
          (get_target_step_files (fun _ => (-50 : Int)) (fun _ => [])
            [SubStep.mk true true true "screenA" "profA"])
          (SubStep.mk true true true "screenB" "profB")).sync_offsets
          "screenB" = some |(-50 : Int)| ∧
      ("profB" ≠ "screenB" →
        dictLookup (processSubStep (fun _ => (-50 : Int)) (fun _ => [])
            (get_target_step_files (fun _ => (-50 : Int)) (fun _ => [])
              [SubStep.mk true true true "screenA" "profA"])
            (SubStep.mk true true true "screenB" "profB")).sync_offsets
            "profB" =
          dictLookup (get_target_step_files (fun _ => (-50 : Int)) (fun _ => [])
            [SubStep.mk true true true "screenA" "profA"]).sync_offsets "profB")) ∧
    (¬ (0 : Int) < (-50) →
      dictLookup (processSubStep (fun _ => (-50 : Int)) (fun _ => [])
          (get_target_step_files (fun _ => (-50 : Int)) (fun _ => [])
            [SubStep.mk true true true "screenA" "profA"])
          (SubStep.mk true true true "screenB" "profB")).sync_offsets
          "profB" = some |(-50 : Int)| ∧
      ("screenB" ≠ "profB" →
        dictLookup (processSubStep (fun _ => (-50 : Int)) (fun _ => [])
            (get_target_step_files (fun _ => (-50 : Int)) (fun _ => [])
              [SubStep.mk true true true "screenA" "profA"])
            (SubStep.mk true true true "screenB" "profB")).sync_offsets
            "screenB" =
          dictLookup (get_target_step_files (fun _ => (-50 : Int)) (fun _ => [])
            [SubStep.mk true true true "screenA" "profA"]).sync_offsets "screenB")) :=
  C1_offset_attribution (fun _ => (-50 : Int)) (fun _ => [])
    [SubStep.mk true true true "screenA" "profA"]
    (SubStep.mk true true true "screenB" "profB") (by decide)

/-- C3: when the sentinel file is present but the editing tool process is
detected as already running, `export_obj_to_prproj` returns the fatal
single-instance result, for all inputs; no command is built and nothing
is handed to the external process client. -/
theorem C3_running_process_fatal (env : ExportEnv) (translate : String → String)
    (db_object : DbObject) (files_extractor : DbObject → ExtractedFiles)
    (hreq : env.required_file_exists = true)
    (hrun : env.ppro_process_running = true) :
    export_obj_to_prproj env translate db_object files_extractor =
      { result := ⟨.FATAL_ERROR,
          "Only one instance of PPro may exist. Please, close PPro and try again."⟩,
        executed_command := none } := by
  simp [export_obj_to_prproj, hreq, hrun]

/-- Witness for C3 at a concrete busy environment. -/
theorem C3_running_process_fatal_witness :
    export_obj_to_prproj envBusy id sampleObj sampleExtractor =
      { result := ⟨.FATAL_ERROR,
          "Only one instance of PPro may exist. Please, close PPro and try again."⟩,
        executed_command := none } :=
  C3_running_process_fatal envBusy id sampleObj sampleExtractor rfl rfl

/-- C4: when the extractor returns an empty screen or professor filename
sequence, `export_obj_to_prproj` returns the fatal empty-object result and
no command is handed to the external process client. -/
theorem C4_empty_files_fatal (env : ExportEnv) (translate : String → String)
    (db_object : DbObject) (files_extractor : DbObject → ExtractedFiles)
    (screen_files prof_files : List String)
    (marker_times : List (String × List Int)) (sync_offsets : List (String × Int))
    (hx : files_extractor db_object =
      (screen_files, prof_files, marker_times, sync_offsets))
    (hreq : env.required_file_exists = true)
    (hrun : env.ppro_process_running = false)
    (hempty : screen_files = [] ∨ prof_files = []) :
    export_obj_to_prproj env translate db_object files_extractor =
      { result := ⟨.FATAL_ERROR, "Object is empty or subitems are broken."⟩,
        executed_command := none } := by
  rcases hempty with h | h
  · subst h
    simp [export_obj_to_prproj, hreq, hrun, hx]
  · subst h
    simp [export_obj_to_prproj, hreq, hrun, hx]

/-- Witness for C4 at a concrete empty extraction. -/
theorem C4_empty_files_fatal_witness :
    export_obj_to_prproj envIdle id sampleObj emptyExtractor =
      { result := ⟨.FATAL_ERROR, "Object is empty or subitems are broken."⟩,
        executed_command := none } :=
  C4_empty_files_fatal envIdle id sampleObj emptyExtractor [] [] [] []
    rfl rfl rfl (Or.inl rfl)

/-- C5: every exception raised while building the export command inside
`export_obj_to_prproj` is caught and converted to a fatal result carrying
the exception message, and the command is never handed to the external
process client; no construction exception propagates (the model is total). -/
theorem C5_build_exception_caught (env : ExportEnv) (translate : String → String)
    (db_object : DbObject) (files_extractor : DbObject → ExtractedFiles)
    (screen_files prof_files : List String)
    (marker_times : List (String × List Int)) (sync_offsets : List (String × Int))
    (e : String)
    (hx : files_extractor db_object =
      (screen_files, prof_files, marker_times, sync_offsets))
    (hreq : env.required_file_exists = true)
    (hrun : env.ppro_process_running = false)
    (hscreen : screen_files ≠ []) (hprof : prof_files ≠ [])
    (hbuild : build_ppro_command env db_object.os_path PRPROJ_TEMPLATES_PATH
        screen_files prof_files marker_times sync_offsets
        (translate db_object.name) = .error e) :
    export_obj_to_prproj env translate db_object files_extractor =
      { result := ⟨.FATAL_ERROR, e⟩, executed_command := none } := by
  obtain ⟨s0, srest, rfl⟩ := List.exists_cons_of_ne_nil hscreen
  obtain ⟨p0, prest, rfl⟩ := List.exists_cons_of_ne_nil hprof
  simp [export_obj_to_prproj, hreq, hrun, hx, hbuild]

/-- Witness for C5: a missing editing-tool configuration raises during
construction and is downgraded to a fatal result with that message. -/
theorem C5_build_exception_caught_witness :
    export_obj_to_prproj envNoConfig id sampleObj sampleExtractor =
      { result := ⟨.FATAL_ERROR,
          "Adobe PremierePro configuration is missing. Please, specify path to PremierePro in config file."⟩,
        executed_command := none } :=
  C5_build_exception_caught envNoConfig id sampleObj sampleExtractor
    ["screenA.mp4"] ["profA.mp4"] [] []
    "Adobe PremierePro configuration is missing. Please, specify path to PremierePro in config file."
    rfl rfl rfl (by simp) (by simp) rfl

/-- C6: calling `start_recording` while a capture process is active
returns the fatal result and leaves the whole recorder state exactly as it
was; the returned pair does not depend on the launch collaborator, so no
process is launched. -/
theorem C6_start_while_active_rejected (env : CameraEnv) (st : RecorderState)
    (path filename : String) (hactive : is_active st = true) :
    start_recording env st path filename =
      (⟨.FATAL_ERROR, "Camera is actually recording"⟩, st) := by
  simp [start_recording, hactive]

/-- Witness for C6 at a concrete active state. -/
theorem C6_start_while_active_rejected_witness :
    start_recording
      ⟨"ffmpeg -i in ", fun _ => (⟨.SUCCESS, ""⟩, some ⟨99, true⟩),
        fun _ => ⟨.SUCCESS, ""⟩⟩
      ⟨some ⟨42, true⟩, some "C:\\rec", some "old.mp4"⟩ "C:\\rec" "new.mp4" =
      (⟨.FATAL_ERROR, "Camera is actually recording"⟩,
       ⟨some ⟨42, true⟩, some "C:\\rec", some "old.mp4"⟩) :=
  C6_start_while_active_rejected
    ⟨"ffmpeg -i in ", fun _ => (⟨.SUCCESS, ""⟩, some ⟨99, true⟩),
      fun _ => ⟨.SUCCESS, ""⟩⟩
    ⟨some ⟨42, true⟩, some "C:\\rec", some "old.mp4"⟩ "C:\\rec" "new.mp4" rfl

/-- C7: calling `stop_recording` while no capture process is active
returns a success result and interacts with no external process: no quit
signal is sent, no forced-kill task is scheduled, and no postprocessing
pipe is applied. -/
theorem C7_stop_while_inactive_noop (env : CameraEnv) (st : RecorderState)
    (hinactive : is_active st = false) :
    stop_recording env st =
      (⟨.SUCCESS, "Camera isn\x27t active: can\x27t stop non existing FFMPEG process"⟩,
       { st with process := none }, ⟨none, none, none⟩) := by
  match hp : st.process with
  | none => simp [stop_recording, hp]
  | some p =>
      have hrun : p.running = false := by
        rw [is_active, hp] at hinactive
        exact hinactive
      simp [stop_recording, hp, hrun]

/-- Witness for C7 at a concrete state with a stale exited process. -/
theorem C7_stop_while_inactive_noop_witness :
    stop_recording
      ⟨"ffmpeg -i in ", fun _ => (⟨.SUCCESS, ""⟩, some ⟨99, true⟩),
        fun _ => ⟨.SUCCESS, ""⟩⟩
      ⟨some ⟨42, false⟩, some "C:\\rec", some "old.mp4"⟩ =
      (⟨.SUCCESS, "Camera isn\x27t active: can\x27t stop non existing FFMPEG process"⟩,
       ⟨none, some "C:\\rec", some "old.mp4"⟩, ⟨none, none, none⟩) :=
  C7_stop_while_inactive_noop
    ⟨"ffmpeg -i in ", fun _ => (⟨.SUCCESS, ""⟩, some ⟨99, true⟩),
      fun _ => ⟨.SUCCESS, ""⟩⟩
    ⟨some ⟨42, false⟩, some "C:\\rec", some "old.mp4"⟩ rfl

/-- C8: every `stop_recording` call on an active capture process schedules
exactly one forced-kill task for that process identifier with the fixed
grace delay of 3 time units, whatever result the quit-signal send reports. -/
theorem C8_forced_kill_always_scheduled (env : CameraEnv) (st : RecorderState)
    (p : ProcessHandle) (hp : st.process = some p) (hrun : p.running = true) :
    (stop_recording env st).2.2.kill_scheduled = some (p.pid, 3) := by
  have hd : KILL_DELAY = 3 := rfl
  by_cases hs : (env.send_quit_signal p).status = .SUCCESS
  · simp [stop_recording, hp, hrun, hs, hd]
  · simp [stop_recording, hp, hrun, hs, hd]

/-- Witness for C8 with a quit signal that reports failure. -/
theorem C8_forced_kill_always_scheduled_witness :
    (stop_recording
      ⟨"ffmpeg -i in ", fun _ => (⟨.SUCCESS, ""⟩, some ⟨99, true⟩),
        fun _ => ⟨.FATAL_ERROR, "signal lost"⟩⟩
      ⟨some ⟨42, true⟩, some "C:\\rec", some "old.mp4"⟩).2.2.kill_scheduled =
      some (42, 3) :=
  C8_forced_kill_always_scheduled
    ⟨"ffmpeg -i in ", fun _ => (⟨.SUCCESS, ""⟩, some ⟨99, true⟩),
      fun _ => ⟨.FATAL_ERROR, "signal lost"⟩⟩
    ⟨some ⟨42, true⟩, some "C:\\rec", some "old.mp4"⟩ ⟨42, true⟩ rfl rfl

/-- C10: when `start_recording` passes the activity check but the launch
reports failure, `last_processed_path` and `last_processed_file` keep
their previous values while the process handle is overwritten with
whatever handle the launch attempt returned. -/
theorem C10_failed_launch_frame (env : CameraEnv) (st : RecorderState)
    (path filename : String) (res : InternalOperationResult)
    (proc : Option ProcessHandle)
    (hinactive : is_active st = false)
    (hlaunch : env.execute_command (env.command ++ pathJoin path filename) =
      (res, proc))
    (hfail : res.status ≠ .SUCCESS) :
    start_recording env st path filename = (res, { st with process := proc }) := by
  simp [start_recording, hinactive, hlaunch, hfail]

/-- Witness for C10 at a concrete failing launch. -/
theorem C10_failed_launch_frame_witness :
    start_recording
      ⟨"ffmpeg -i in ", fun _ => (⟨.FATAL_ERROR, "launch failed"⟩, some ⟨77, false⟩),
        fun _ => ⟨.SUCCESS, ""⟩⟩
      ⟨none, some "C:\\rec", some "old.mp4"⟩ "C:\\rec" "new.mp4" =
      (⟨.FATAL_ERROR, "launch failed"⟩,
       ⟨some ⟨77, false⟩, some "C:\\rec", some "old.mp4"⟩) :=
  C10_failed_launch_frame
    ⟨"ffmpeg -i in ", fun _ => (⟨.FATAL_ERROR, "launch failed"⟩, some ⟨77, false⟩),
      fun _ => ⟨.SUCCESS, ""⟩⟩
    ⟨none, some "C:\\rec", some "old.mp4"⟩ "C:\\rec" "new.mp4"
    ⟨.FATAL_ERROR, "launch failed"⟩ (some ⟨77, false⟩) rfl rfl (by simp)

end StepikStudio
